import Mathlib

/-
  Verification development for the ai_chan incremental market-structure analyzer.

  Shallow embedding of the Rust sources under src/:
    src/common/enums.rs, src/common/error.rs, src/common/func_util.rs,
    src/kline/kline_unit.rs, src/kline/kline.rs, src/kline/kline_list.rs,
    src/bi/bi.rs, src/bi/bi_config.rs, src/bi/bi_list.rs.

  Modelling conventions:
  - f64 prices are modelled as rationals: every embedded operation on prices is a
    comparison, max or min, whose order-theoretic behaviour on finite doubles
    coincides with the rational order.
  - generational_arena.Arena is modelled as a list; the handle of an element is
    its position.  The sources themselves identify a candle handle with the
    candle field idx (Bi::set stores Index::from_raw_parts(begin_klc.idx, 1)),
    so candle handles are the idx values.
  - the unwrap_or(f64::NEG_INFINITY) / unwrap_or(f64::INFINITY) defaults that
    feed max / min chains in check_fx_valid are folded away: max with a missing
    operand keeps the other operand, which is exactly the behaviour of the
    infinite default.  Helpers maxD / minD below implement this.
  - fallible Rust functions (PyResult) are embedded in Except ChanErr.
  - pointer walks (end_is_peak, can_make_bi) take fuel bounded by the arena
    size; the Rust loop can exceed that bound only on a cyclic candle chain,
    which no reachable state constructs, and fuel exhaustion is an error value.
-/

/-- Error codes from src/common/error.rs (the subset relevant to the embedded
components).  The 200-band data codes are declared in error.rs and are never
raised by any code under src/. -/
inductive ErrCode where
  | CommonError
  | ParaError
  | BiErr
  | CombinerErr
  | PriceBelowZero
  | KlDataInvalid
  | KlTimeInconsistent
  | KlNotMonotonous
  deriving DecidableEq, Repr

/-- ChanException from src/common/error.rs: an error code plus a message. -/
structure ChanErr where
  code : ErrCode
  msg : String
  deriving DecidableEq, Repr

/-- Error-code projection of an Except result, for stating which error a call
raises. -/
def errCodeOf {α : Type} : Except ChanErr α → Option ErrCode
  | .error e => some e.code
  | .ok _ => none

deriving instance DecidableEq for Except

/-- KLineDir from src/common/enums.rs. -/
inductive KLineDir where
  | Up
  | Down
  | Combine
  | Included
  deriving DecidableEq, Repr

/-- FxType from src/common/enums.rs. -/
inductive FxType where
  | Bottom
  | Top
  | Unknown
  deriving DecidableEq, Repr

/-- BiDir from src/common/enums.rs. -/
inductive BiDir where
  | Up
  | Down
  deriving DecidableEq, Repr

/-- FxCheckMethod from src/common/enums.rs. -/
inductive FxCheckMethod where
  | Strict
  | Loss
  | Half
  | Totally
  deriving DecidableEq, Repr

/-- has_overlap from src/common/func_util.rs lines 45-52. -/
def has_overlap (l1 h1 l2 h2 : ℚ) (equal : Bool) : Bool :=
  if equal then decide (h2 ≥ l1) && decide (h1 ≥ l2)
  else decide (h2 > l1) && decide (h1 > l2)

/-- The raw bar record handed to KLineUnit::new (src/kline/kline_unit.rs).
The field open is spelled open_ because open is a Lean keyword; kl_type and
the optional trade metrics are out of scope for every claim. -/
structure BarInput where
  time : Int
  open_ : ℚ
  close : ℚ
  high : ℚ
  low : ℚ
  deriving DecidableEq, Repr

/-- KLineUnit from src/kline/kline_unit.rs (trade_info, parent/children/klc
bookkeeping omitted: no embedded operation reads them). -/
structure KLineUnit where
  time : Int
  open_ : ℚ
  close : ℚ
  high : ℚ
  low : ℚ
  dir : KLineDir
  deriving DecidableEq, Repr

/-- KLineUnit::new, src/kline/kline_unit.rs lines 29-74.  It copies the fields
and derives dir; it performs no validation of any kind: high < low and
nonpositive prices are accepted. -/
def KLineUnit.new (data : BarInput) (auto_trend : Bool) : KLineUnit :=
  { time := data.time
    open_ := data.open_
    close := data.close
    high := data.high
    low := data.low
    dir := if auto_trend then (if data.close ≥ data.open_ then KLineDir.Up else KLineDir.Down)
           else KLineDir.Up }

/-- KLine from src/kline/kline.rs (kl_type omitted: no claim reads it).
pre_kl / next_kl hold candle handles. -/
structure KLine where
  idx : Nat
  dir : KLineDir
  fx : FxType
  high : ℚ
  low : ℚ
  time_begin : Int
  time_end : Int
  units : List Nat
  pre_kl : Option Nat
  next_kl : Option Nat
  deriving DecidableEq, Repr

/-- KLine::new, src/kline/kline.rs lines 31-45. -/
def KLine.new (kl_unit : KLineUnit) (idx : Nat) (dir : KLineDir) : KLine :=
  { idx := idx
    dir := dir
    fx := FxType.Unknown
    high := kl_unit.high
    low := kl_unit.low
    time_begin := kl_unit.time
    time_end := kl_unit.time
    units := []
    pre_kl := none
    next_kl := none }

/-- KLine::add_unit, src/kline/kline.rs lines 300-313.  Note that the merged
bounds are direction-independent: high takes the max and low takes the min
whatever self.dir is. -/
def KLine.add_unit (self : KLine) (unit_idx : Nat) (arena : List KLineUnit) :
    Except ChanErr KLine :=
  match arena.get? unit_idx with
  | some unit =>
      .ok { self with
              units := self.units ++ [unit_idx]
              high := max self.high unit.high
              low := min self.low unit.low
              time_end := unit.time }
  | none => .error ⟨ErrCode.CommonError, "Invalid KLineUnit index"⟩

/-- max with a present-or-absent first operand: max (o.unwrap_or(-inf)) b. -/
def maxD (o : Option ℚ) (b : ℚ) : ℚ :=
  match o with
  | some v => max v b
  | none => b

/-- min with a present-or-absent first operand: min (o.unwrap_or(inf)) b. -/
def minD (o : Option ℚ) (b : ℚ) : ℚ :=
  match o with
  | some v => min v b
  | none => b

/-- max with a present-or-absent second operand: max b (o.unwrap_or(-inf)). -/
def maxD2 (b : ℚ) (o : Option ℚ) : ℚ :=
  match o with
  | some v => max b v
  | none => b

/-- min with a present-or-absent second operand: min b (o.unwrap_or(inf)). -/
def minD2 (b : ℚ) (o : Option ℚ) : ℚ :=
  match o with
  | some v => min b v
  | none => b

/-- The high of the candle a handle option points to, when present:
o.and_then(get).map(high). -/
def optHigh (arena : List KLine) (o : Option Nat) : Option ℚ :=
  (o.bind (fun i => arena.get? i)).map (fun k => k.high)

/-- The low of the candle a handle option points to, when present. -/
def optLow (arena : List KLine) (o : Option Nat) : Option ℚ :=
  (o.bind (fun i => arena.get? i)).map (fun k => k.low)

/-- KLine::check_fx_valid, src/kline/kline.rs lines 165-295.  self is the
stroke anchor fractal, item2 the candidate opposite end. -/
def KLine.check_fx_valid (self item2 : KLine) (method : FxCheckMethod)
    (for_virtual : Bool) (arena : List KLine) : Except ChanErr Bool :=
  if self.next_kl = none ∨ item2.pre_kl = none ∨ self.pre_kl = none then
    .error ⟨ErrCode.CommonError, "Invalid K-line sequence"⟩
  else if item2.idx ≤ self.idx then
    .error ⟨ErrCode.CommonError, "Invalid K-line order"⟩
  else
    match self.fx with
    | FxType.Top =>
        if for_virtual = false ∧ item2.fx ≠ FxType.Bottom then .ok false
        else if for_virtual = true ∧ item2.dir ≠ KLineDir.Down then .ok false
        else
          let pair : ℚ × ℚ :=
            match method with
            | FxCheckMethod.Half =>
                (maxD (optHigh arena item2.pre_kl) item2.high,
                 minD2 self.low (optLow arena self.next_kl))
            | FxCheckMethod.Loss => (item2.high, self.low)
            | FxCheckMethod.Strict | FxCheckMethod.Totally =>
                (if for_virtual then maxD (optHigh arena item2.pre_kl) item2.high
                 else maxD2 (maxD (optHigh arena item2.pre_kl) item2.high)
                        (optHigh arena item2.next_kl),
                 minD2 (minD (optLow arena self.pre_kl) self.low)
                   (optLow arena self.next_kl))
          if method = FxCheckMethod.Totally then .ok (decide (self.low > pair.1))
          else .ok (decide (self.high > pair.1) && decide (item2.low < pair.2))
    | FxType.Bottom =>
        if for_virtual = false ∧ item2.fx ≠ FxType.Top then .ok false
        else if for_virtual = true ∧ item2.dir ≠ KLineDir.Up then .ok false
        else
          let pair : ℚ × ℚ :=
            match method with
            | FxCheckMethod.Half =>
                (minD (optLow arena item2.pre_kl) item2.low,
                 maxD2 self.high (optHigh arena self.next_kl))
            | FxCheckMethod.Loss => (item2.low, self.high)
            | FxCheckMethod.Strict | FxCheckMethod.Totally =>
                (if for_virtual then minD (optLow arena item2.pre_kl) item2.low
                 else minD2 (minD (optLow arena item2.pre_kl) item2.low)
                        (optLow arena item2.next_kl),
                 maxD2 (maxD (optHigh arena self.pre_kl) self.high)
                   (optHigh arena self.next_kl))
          if method = FxCheckMethod.Totally then .ok (decide (self.high < pair.1))
          else .ok (decide (self.low < pair.1) && decide (item2.high > pair.2))
    | FxType.Unknown =>
        .error ⟨ErrCode.BiErr, "Only top/bottom fx can check_valid_top_button"⟩

/-- Modelled from the spec: KLine::get_next is called by end_is_peak in
src/bi/bi_list.rs but its definition is not under src/.  Section 3 of the spec
makes prev/next candle links handles resolved through the owning container, so
get_next resolves next_kl in the candle arena and fails when the link or the
candle is absent. -/
def KLine.get_next (self : KLine) (arena : List KLine) : Except ChanErr KLine :=
  match self.next_kl with
  | some i =>
      match arena.get? i with
      | some k => .ok k
      | none => .error ⟨ErrCode.CommonError, "Next K-line not found"⟩
  | none => .error ⟨ErrCode.CommonError, "Next K-line not found"⟩

/-- Modelled from the spec: KLine::try_add is called by
KLineList::add_single_klu (src/kline/kline_list.rs line 133) but its definition
is not under src/.  Spec section 4.1 merge rule: if neither the tail candle nor
the incoming bar contains the other in [low, high], answer the direction
sign(B.high - T.high) and leave the tail unchanged; if one contains the other,
merge the bar into the tail (directional regime: max/max when the tail
direction is Up or there is no predecessor and B.high > T.high, min/min when
Down), append the bar handle, advance time_end, and answer Combine. -/
def KLine.try_add (self : KLine) (unit_idx : Nat) (arena : List KLineUnit) :
    Except ChanErr (KLine × KLineDir) :=
  match arena.get? unit_idx with
  | none => .error ⟨ErrCode.CommonError, "Invalid KLineUnit index"⟩
  | some u =>
      if (self.high ≥ u.high ∧ self.low ≤ u.low) ∨
         (u.high ≥ self.high ∧ u.low ≤ self.low) then
        let useMax : Bool :=
          decide (self.dir = KLineDir.Up ∨ (self.pre_kl = none ∧ u.high > self.high))
        .ok ({ self with
                high := if useMax then max self.high u.high else min self.high u.high
                low := if useMax then max self.low u.low else min self.low u.low
                units := self.units ++ [unit_idx]
                time_end := u.time }, KLineDir.Combine)
      else
        .ok (self, if u.high > self.high then KLineDir.Up else KLineDir.Down)

/-- BiConfig from src/bi/bi_config.rs (bi_fx_check already parsed to its enum,
as the constructor does). -/
structure BiConfig where
  bi_algo : String
  is_strict : Bool
  bi_fx_check : FxCheckMethod
  gap_as_kl : Bool
  bi_end_is_peak : Bool
  bi_allow_sub_peak : Bool
  deriving DecidableEq, Repr

/-- The BiConfig::new defaults from src/bi/bi_config.rs. -/
def BiConfig.default : BiConfig :=
  { bi_algo := "normal"
    is_strict := true
    bi_fx_check := FxCheckMethod.Half
    gap_as_kl := true
    bi_end_is_peak := true
    bi_allow_sub_peak := true }

/-- Bi from src/bi/bi.rs.  begin_klc_idx / end_klc_idx are candle handles,
next / pre are stroke handles.  bi_type, seg_idx, parent_seg, bsp and the
memo cache are omitted: no embedded operation reads them. -/
structure Bi where
  begin_klc_idx : Nat
  end_klc_idx : Nat
  dir : BiDir
  idx : Nat
  is_sure : Bool
  sure_end : List Nat
  next : Option Nat
  pre : Option Nat
  deriving DecidableEq, Repr

/-- Bi::check, src/bi/bi.rs lines 165-194: the direction must be consistent
with the endpoint candle prices, re-read from the arena. -/
def Bi.check (self : Bi) (arena : List KLine) : Except ChanErr Unit :=
  match arena.get? self.begin_klc_idx with
  | none => .error ⟨ErrCode.CommonError, "Invalid begin_klc_idx"⟩
  | some begin_klc =>
      match arena.get? self.end_klc_idx with
      | none => .error ⟨ErrCode.CommonError, "Invalid end_klc_idx"⟩
      | some end_klc =>
          match self.dir with
          | BiDir.Down =>
              if begin_klc.high ≤ end_klc.low then
                .error ⟨ErrCode.BiErr, "bi direction and endpoints are inconsistent"⟩
              else .ok ()
          | BiDir.Up =>
              if begin_klc.low ≥ end_klc.high then
                .error ⟨ErrCode.BiErr, "bi direction and endpoints are inconsistent"⟩
              else .ok ()

/-- Bi::set, src/bi/bi.rs lines 197-213: re-point the endpoints (the handle
stored is the candle idx, as in Index::from_raw_parts(klc.idx, 1)), derive the
direction from the begin fractal, then run the consistency check.
clean_cache is a no-op here because the memo cache is not modelled. -/
def Bi.set (self : Bi) (begin_klc end_klc : KLine) (arena : List KLine) :
    Except ChanErr Bi :=
  match begin_klc.fx with
  | FxType.Bottom =>
      let nb := { self with
                    begin_klc_idx := begin_klc.idx
                    end_klc_idx := end_klc.idx
                    dir := BiDir.Up }
      match nb.check arena with
      | .error e => .error e
      | .ok _ => .ok nb
  | FxType.Top =>
      let nb := { self with
                    begin_klc_idx := begin_klc.idx
                    end_klc_idx := end_klc.idx
                    dir := BiDir.Down }
      match nb.check arena with
      | .error e => .error e
      | .ok _ => .ok nb
  | FxType.Unknown => .error ⟨ErrCode.BiErr, "ERROR DIRECTION when creating bi"⟩

/-- Bi::new, src/bi/bi.rs lines 31-58: build the record with placeholder
endpoints and direction, then delegate to Bi::set. -/
def Bi.new (begin_klc end_klc : KLine) (idx : Nat) (is_sure : Bool)
    (arena : List KLine) : Except ChanErr Bi :=
  Bi.set
    { begin_klc_idx := 0
      end_klc_idx := 0
      dir := BiDir.Up
      idx := idx
      is_sure := is_sure
      sure_end := []
      next := none
      pre := none } begin_klc end_klc arena

/-- Bi::get_end_val, src/bi/bi.rs lines 227-235: the high of the end candle of
an Up stroke, its low for a Down stroke (is_up tests dir = Up). -/
def Bi.get_end_val (self : Bi) (arena : List KLine) : Except ChanErr ℚ :=
  match arena.get? self.end_klc_idx with
  | none => .error ⟨ErrCode.CommonError, "Invalid end_klc_idx"⟩
  | some end_klc =>
      .ok (if self.dir = BiDir.Up then end_klc.high else end_klc.low)

/-- BiList from src/bi/bi_list.rs.  bi_list holds stroke handles into arena;
kline_arena is the candle arena the stroke machinery reads. -/
structure BiList where
  bi_list : List Nat
  last_end : Option Nat
  config : BiConfig
  free_klc_lst : List Nat
  arena : List Bi
  kline_arena : List KLine
  deriving DecidableEq, Repr

/-- BiList::new, src/bi/bi_list.rs lines 26-35. -/
def BiList.new (bi_conf : BiConfig) : BiList :=
  { bi_list := []
    last_end := none
    config := bi_conf
    free_klc_lst := []
    arena := []
    kline_arena := [] }

/-- The loop of end_is_peak, src/bi/bi_list.rs lines 591-617: walk the candle
chain from the candle after the old end up to (excluding) cur_end, and fail the
peak test when an intermediate candle beats cmp_thred (high above it for a
Bottom start, low below it for a Top start).  Fuel bounds the pointer walk. -/
def end_is_peak_loop (arena : List KLine) (fromBottom : Bool) (cmp_thred : ℚ)
    (stop_idx : Nat) : KLine → Nat → Except ChanErr Bool
  | _, 0 => .error ⟨ErrCode.CommonError, "candle walk exceeded arena size"⟩
  | klc, fuel + 1 =>
      if klc.idx < stop_idx then
        if (if fromBottom then decide (klc.high > cmp_thred)
            else decide (klc.low < cmp_thred)) then .ok false
        else
          match klc.get_next arena with
          | .error e => .error e
          | .ok nxt => end_is_peak_loop arena fromBottom cmp_thred stop_idx nxt fuel
      else .ok true

/-- end_is_peak, src/bi/bi_list.rs lines 591-617. -/
def end_is_peak (last_end cur_end : KLine) (arena : List KLine) :
    Except ChanErr Bool :=
  match last_end.fx with
  | FxType.Bottom =>
      match last_end.get_next arena with
      | .error e => .error e
      | .ok k => end_is_peak_loop arena true cur_end.high cur_end.idx k (arena.length + 1)
  | FxType.Top =>
      match last_end.get_next arena with
      | .error e => .error e
      | .ok k => end_is_peak_loop arena false cur_end.low cur_end.idx k (arena.length + 1)
  | FxType.Unknown => .ok true

/-- BiList::can_update_peak, src/bi/bi_list.rs lines 111-159.  Note the first
guard: it answers false outright when bi_allow_sub_peak is TRUE or fewer than
two strokes exist. -/
def BiList.can_update_peak (self : BiList) (klc : KLine) : Except ChanErr Bool :=
  if self.config.bi_allow_sub_peak = true ∨ self.bi_list.length < 2 then .ok false
  else
    match self.bi_list.get? (self.bi_list.length - 1) with
    | none => .error ⟨ErrCode.CommonError, "Invalid bi index"⟩
    | some last_bi_idx =>
        match self.arena.get? last_bi_idx with
        | none => .error ⟨ErrCode.CommonError, "Invalid bi index"⟩
        | some last_bi =>
            match self.kline_arena.get? last_bi.begin_klc_idx with
            | none => .error ⟨ErrCode.CommonError, "Invalid kline index"⟩
            | some last_begin_klc =>
                if last_bi.dir = BiDir.Down ∧ klc.high < last_begin_klc.high then .ok false
                else if last_bi.dir = BiDir.Up ∧ klc.low > last_begin_klc.low then .ok false
                else
                  match end_is_peak last_begin_klc klc self.kline_arena with
                  | .error e => .error e
                  | .ok false => .ok false
                  | .ok true =>
                      match self.bi_list.get? (self.bi_list.length - 2) with
                      | none => .error ⟨ErrCode.CommonError, "Invalid bi index"⟩
                      | some second_last_idx =>
                          match self.arena.get? second_last_idx with
                          | none => .error ⟨ErrCode.CommonError, "Invalid bi index"⟩
                          | some second_last_bi =>
                              match self.kline_arena.get? second_last_bi.begin_klc_idx with
                              | none => .error ⟨ErrCode.CommonError, "Invalid kline index"⟩
                              | some second_last_begin_klc =>
                                  match last_bi.get_end_val self.kline_arena with
                                  | .error e => .error e
                                  | .ok ev =>
                                      if last_bi.dir = BiDir.Down ∧ ev < second_last_begin_klc.low then .ok false
                                      else if last_bi.dir = BiDir.Up ∧ ev > second_last_begin_klc.high then .ok false
                                      else .ok true

/-- The loop of BiList::can_make_bi, src/bi/bi_list.rs lines 312-326: walk
from begin_klc until end_klc.idx; an intermediate candle whose fractal is
known and differs from both endpoint fractals rejects the stroke.  Fuel bounds
the pointer walk. -/
def can_make_bi_loop (arena : List KLine) (begin_fx end_fx : FxType)
    (end_idx : Nat) : KLine → Nat → Except ChanErr Bool
  | _, 0 => .error ⟨ErrCode.CommonError, "candle walk exceeded arena size"⟩
  | current, fuel + 1 =>
      if current.idx < end_idx then
        match current.next_kl with
        | none => .error ⟨ErrCode.CommonError, "Invalid next kline"⟩
        | some ni =>
            match arena.get? ni with
            | none => .error ⟨ErrCode.CommonError, "Invalid kline sequence"⟩
            | some nxt =>
                if nxt.fx ≠ FxType.Unknown ∧ nxt.fx ≠ begin_fx ∧ nxt.fx ≠ end_fx then
                  .ok false
                else can_make_bi_loop arena begin_fx end_fx end_idx nxt fuel
      else .ok true

/-- BiList::can_make_bi, src/bi/bi_list.rs lines 303-343. -/
def BiList.can_make_bi (self : BiList) (begin_klc end_klc : KLine) :
    Except ChanErr Bool :=
  if begin_klc.fx = FxType.Unknown ∨ end_klc.fx = FxType.Unknown then .ok false
  else if begin_klc.fx = end_klc.fx then .ok false
  else
    match can_make_bi_loop self.kline_arena begin_klc.fx end_klc.fx end_klc.idx
        begin_klc (self.kline_arena.length + 1) with
    | .error e => .error e
    | .ok false => .ok false
    | .ok true =>
        match begin_klc.fx with
        | FxType.Bottom =>
            if end_klc.high ≤ begin_klc.low then .ok false else .ok true
        | FxType.Top =>
            if end_klc.low ≥ begin_klc.high then .ok false else .ok true
        | FxType.Unknown => .ok false

/-- BiList::add_new_bi, src/bi/bi_list.rs lines 162-188: build a confirmed Bi
from the two candles the handles resolve to, insert it, and link it behind the
previous tail stroke. -/
def BiList.add_new_bi (self : BiList) (begin_klc_idx end_klc_idx : Nat) :
    Except ChanErr BiList :=
  match self.kline_arena.get? begin_klc_idx with
  | none => .error ⟨ErrCode.CommonError, "Invalid begin kline index"⟩
  | some begin_klc =>
      match self.kline_arena.get? end_klc_idx with
      | none => .error ⟨ErrCode.CommonError, "Invalid end kline index"⟩
      | some end_klc =>
          match Bi.new begin_klc end_klc self.bi_list.length true self.kline_arena with
          | .error e => .error e
          | .ok bi =>
              let bi_idx := self.arena.length
              let arena1 := self.arena ++ [bi]
              match self.bi_list.getLast? with
              | some last_bi_idx =>
                  let arena2 :=
                    match arena1.get? last_bi_idx with
                    | some last_bi => arena1.set last_bi_idx { last_bi with next := some bi_idx }
                    | none => arena1
                  let arena3 :=
                    match arena2.get? bi_idx with
                    | some new_bi => arena2.set bi_idx { new_bi with pre := some last_bi_idx }
                    | none => arena2
                  .ok { self with arena := arena3, bi_list := self.bi_list ++ [bi_idx] }
              | none =>
                  .ok { self with arena := arena1, bi_list := self.bi_list ++ [bi_idx] }

/-- BiList::add_virtual_bi, src/bi/bi_list.rs lines 225-251: same as
add_new_bi except the new stroke is built with is_sure = false. -/
def BiList.add_virtual_bi (self : BiList) (begin_klc_idx end_klc_idx : Nat) :
    Except ChanErr BiList :=
  match self.kline_arena.get? begin_klc_idx with
  | none => .error ⟨ErrCode.CommonError, "Invalid begin kline index"⟩
  | some begin_klc =>
      match self.kline_arena.get? end_klc_idx with
      | none => .error ⟨ErrCode.CommonError, "Invalid end kline index"⟩
      | some end_klc =>
          match Bi.new begin_klc end_klc self.bi_list.length false self.kline_arena with
          | .error e => .error e
          | .ok bi =>
              let bi_idx := self.arena.length
              let arena1 := self.arena ++ [bi]
              match self.bi_list.getLast? with
              | some last_bi_idx =>
                  let arena2 :=
                    match arena1.get? last_bi_idx with
                    | some last_bi => arena1.set last_bi_idx { last_bi with next := some bi_idx }
                    | none => arena1
                  let arena3 :=
                    match arena2.get? bi_idx with
                    | some new_bi => arena2.set bi_idx { new_bi with pre := some last_bi_idx }
                    | none => arena2
                  .ok { self with arena := arena3, bi_list := self.bi_list ++ [bi_idx] }
              | none =>
                  .ok { self with arena := arena1, bi_list := self.bi_list ++ [bi_idx] }

/-- BiList::try_add_virtual_bi, src/bi/bi_list.rs lines 191-222.  The source
indexes bi_list[len - 1]; for a nonempty list that element is getLast?. -/
def BiList.try_add_virtual_bi (self : BiList) (last_klc : KLine) :
    Except ChanErr (BiList × Bool) :=
  match self.bi_list.getLast? with
  | none => .ok (self, false)
  | some last_bi_idx =>
      match self.arena.get? last_bi_idx with
      | none => .error ⟨ErrCode.CommonError, "Invalid bi index"⟩
      | some last_bi =>
          if last_bi.is_sure = false then .ok (self, false)
          else
            match self.kline_arena.get? last_bi.end_klc_idx with
            | none => .error ⟨ErrCode.CommonError, "Invalid kline index"⟩
            | some last_end_klc =>
                if last_end_klc.fx = FxType.Unknown then .ok (self, false)
                else
                  match self.can_make_bi last_end_klc last_klc with
                  | .error e => .error e
                  | .ok false => .ok (self, false)
                  | .ok true =>
                      match self.add_virtual_bi last_end_klc.idx last_klc.idx with
                      | .error e => .error e
                      | .ok s => .ok (s, true)

/-- BiList::update_bi_sure, src/bi/bi_list.rs lines 254-300.  The source
indexes bi_list[len - 1]; for a nonempty list that element is getLast?, and
the empty early return is the none branch. -/
def BiList.update_bi_sure (self : BiList) (klc : KLine) :
    Except ChanErr (BiList × Bool) :=
  match self.bi_list.getLast? with
  | none => .ok (self, false)
  | some last_bi_idx =>
      match self.arena.get? last_bi_idx with
      | none => .error ⟨ErrCode.CommonError, "Invalid bi index"⟩
      | some last_bi =>
          if last_bi.is_sure = true then .ok (self, false)
          else
            match self.kline_arena.get? last_bi.end_klc_idx with
            | none => .error ⟨ErrCode.CommonError, "Invalid kline index"⟩
            | some last_end_klc =>
                if last_end_klc.fx = klc.fx then
                  match self.can_update_peak klc with
                  | .error e => .error e
                  | .ok false => .ok (self, false)
                  | .ok true =>
                      match self.kline_arena.get? last_bi.begin_klc_idx with
                      | none => .error ⟨ErrCode.CommonError, "Invalid kline index"⟩
                      | some bk =>
                          match last_bi.set bk klc self.kline_arena with
                          | .error e => .error e
                          | .ok nb =>
                              .ok ({ self with arena := self.arena.set last_bi_idx nb }, true)
                else
                  match self.can_make_bi last_end_klc klc with
                  | .error e => .error e
                  | .ok false => .ok (self, false)
                  | .ok true =>
                      let self1 :=
                        { self with
                            arena := self.arena.set last_bi_idx
                              { last_bi with
                                  is_sure := true
                                  sure_end := last_bi.sure_end ++ [last_bi.end_klc_idx] } }
                      match self1.add_new_bi last_end_klc.idx klc.idx with
                      | .error e => .error e
                      | .ok self2 => .ok (self2, true)

/-- BiList::update_bi, src/bi/bi_list.rs lines 100-108. -/
def BiList.update_bi (self : BiList) (klc last_klc : KLine) (cal_virtual : Bool) :
    Except ChanErr (BiList × Bool) :=
  match self.update_bi_sure klc with
  | .error e => .error e
  | .ok (s1, flag1) =>
      if cal_virtual then
        match s1.try_add_virtual_bi last_klc with
        | .error e => .error e
        | .ok (s2, flag2) => .ok (s2, flag1 || flag2)
      else .ok (s1, flag1)

/-- Modelled from the spec: KLine::update_fx and
KLineList::get_last_three_klines are called by add_single_klu
(src/kline/kline_list.rs lines 156-159) but their definitions are not under
src/.  Spec section 4.1 fractal assignment: with A, M, N the last three
candles, M gets Top if M.high > A.high and M.high > N.high, Bottom if
M.low < A.low and M.low < N.low, else Unknown; A and N keep their fractals.
This helper rewrites the fractal of the middle of the last three candles in
the arena, and fails when the chain is shorter than three candles or a handle
is dangling. -/
def updateLastThreeFx (arena : List KLine) (klines : List Nat) :
    Except ChanErr (List KLine) :=
  match klines.get? (klines.length - 3), klines.get? (klines.length - 2),
      klines.get? (klines.length - 1) with
  | some ha, some hm, some hn =>
      match arena.get? ha, arena.get? hm, arena.get? hn with
      | some a, some m, some n =>
          let fx :=
            if m.high > a.high ∧ m.high > n.high then FxType.Top
            else if m.low < a.low ∧ m.low < n.low then FxType.Bottom
            else FxType.Unknown
          .ok (arena.set hm { m with fx := fx })
      | _, _, _ => .error ⟨ErrCode.CommonError, "Invalid KLine"⟩
  | _, _, _ => .error ⟨ErrCode.CommonError, "Invalid KLine"⟩

/-- KLineList from src/kline/kline_list.rs.  klines holds candle handles into
arena.  The segment, pivot and buy/sell-point lists, their histories, the
metric models and the config live in modules that are not under src/ and no
claim reads them, so they are omitted.  KLineList::new (line 55) fixes
step_calculation = false and nothing under src/ ever sets it to true, so the
embedding specialises add_single_klu to that value: the two branches guarded
by step_calculation, including every call of cal_seg_and_zs, are statically
dead. -/
structure KLineList where
  klines : List Nat
  bi_list : BiList
  arena : List KLine
  unit_arena : List KLineUnit
  deriving DecidableEq, Repr

/-- KLineList::new, src/kline/kline_list.rs lines 39-61, restricted to the
embedded components. -/
def KLineList.new (bi_conf : BiConfig) : KLineList :=
  { klines := []
    bi_list := BiList.new bi_conf
    arena := []
    unit_arena := [] }

/-- KLineList::add_single_klu, src/kline/kline_list.rs lines 115-176, with
step_calculation = false (see the KLineList comment).  set_metric is a no-op
because the metric model list is empty and persisted indicators are out of
scope.  Note that no validation of the unit and no time-order check is
performed anywhere on this path. -/
def KLineList.add_single_klu (self : KLineList) (klu : KLineUnit) :
    Except ChanErr KLineList :=
  let klu_idx := self.unit_arena.length
  let unit_arena := self.unit_arena ++ [klu]
  match self.klines.getLast? with
  | none =>
      let kline := KLine.new klu 0 KLineDir.Up
      .ok { self with
              unit_arena := unit_arena
              arena := self.arena ++ [kline]
              klines := self.klines ++ [self.arena.length] }
  | some last_h =>
      match self.arena.get? last_h with
      | none => .error ⟨ErrCode.CommonError, "Invalid KLine"⟩
      | some last_kl =>
          match last_kl.try_add klu_idx unit_arena with
          | .error e => .error e
          | .ok (last_kl1, dir) =>
              if dir ≠ KLineDir.Combine then
                let new_kline := KLine.new klu self.klines.length dir
                let new_h := self.arena.length
                let arena1 := (self.arena.set last_h
                    { last_kl1 with next_kl := some new_h }) ++
                  [{ new_kline with pre_kl := some last_h }]
                let klines1 := self.klines ++ [new_h]
                match (if klines1.length ≥ 3 then updateLastThreeFx arena1 klines1
                       else .ok arena1) with
                | .error e => .error e
                | .ok arena2 =>
                    match klines1.get? (klines1.length - 2) with
                    | none => .error ⟨ErrCode.CommonError, "Invalid KLine"⟩
                    | some prev_h =>
                        match arena2.get? prev_h, arena2.get? new_h with
                        | some prev_k, some last_k =>
                            match self.bi_list.update_bi prev_k last_k false with
                            | .error e => .error e
                            | .ok (bl, _) =>
                                .ok { self with
                                        unit_arena := unit_arena
                                        arena := arena2
                                        klines := klines1
                                        bi_list := bl }
                        | _, _ => .error ⟨ErrCode.CommonError, "Invalid KLine"⟩
              else
                .ok { self with
                        unit_arena := unit_arena
                        arena := self.arena.set last_h last_kl1 }

/- List plumbing lemmas used to normalise arena updates. -/

theorem get?_some_lt {α : Type} : ∀ (l : List α) (i : Nat) (v : α),
    l.get? i = some v → i < l.length
  | [], i, v, h => by simp [List.get?] at h
  | _ :: _, 0, _, _ => by simp
  | _ :: t, i + 1, v, h => by
      simpa using Nat.succ_lt_succ (get?_some_lt t i v (by simpa using h))

theorem set_append_left {α : Type} (l : List α) (x : α) (i : Nat) (v : α)
    (h : i < l.length) : (l ++ [x]).set i v = l.set i v ++ [x] := by
  induction l generalizing i with
  | nil => cases h
  | cons a t ih =>
      cases i with
      | zero => simp [List.set]
      | succ n => simp [List.set, ih n (Nat.lt_of_succ_lt_succ h)]

theorem set_append_length {α : Type} (l : List α) (x v : α) :
    (l ++ [x]).set l.length v = l ++ [v] := by
  induction l with
  | nil => simp
  | cons a t ih => simp [List.set, ih]

theorem set_set_same {α : Type} (l : List α) (i : Nat) (a b : α) :
    (l.set i a).set i b = l.set i b := by
  induction l generalizing i with
  | nil => simp
  | cons c t ih =>
      cases i with
      | zero => simp [List.set]
      | succ n => simp [List.set, ih n]

theorem get?_set_self {α : Type} (l : List α) (i : Nat) (v : α)
    (h : i < l.length) : (l.set i v).get? i = some v := by
  induction l generalizing i with
  | nil => cases h
  | cons a t ih =>
      cases i with
      | zero => simp [List.set]
      | succ n => simpa [List.set] using ih n (Nat.lt_of_succ_lt_succ h)

theorem get?_set_ne {α : Type} (l : List α) (i j : Nat) (v : α)
    (h : i ≠ j) : (l.set i v).get? j = l.get? j := by
  induction l generalizing i j with
  | nil => simp
  | cons a t ih =>
      cases i with
      | zero =>
          cases j with
          | zero => exact absurd rfl h
          | succ m => simp [List.set]
      | succ n =>
          cases j with
          | zero => simp [List.set]
          | succ m => simpa [List.set] using ih n m (fun hnm => h (by simpa using hnm))

theorem get?_append_left_of_lt {α : Type} (l l2 : List α) (i : Nat)
    (h : i < l.length) : (l ++ l2).get? i = l.get? i := by
  induction l generalizing i with
  | nil => cases h
  | cons a t ih =>
      cases i with
      | zero => simp
      | succ n => simpa using ih n (Nat.lt_of_succ_lt_succ h)

theorem get?_append_self_length {α : Type} (l : List α) (x : α) :
    (l ++ [x]).get? l.length = some x := by
  induction l with
  | nil => simp
  | cons a t ih => simp [ih]

theorem getLast?_ne_nil {α : Type} (l : List α) (v : α)
    (h : l.getLast? = some v) : l ≠ [] := by
  intro hnil
  rw [hnil] at h
  simp at h

/- Concrete inputs used by counterexamples, code-bug evaluations and
witnesses. -/

/-- A Down-direction merged tail candle. -/
def cexTailDown : KLine :=
  { idx := 0, dir := KLineDir.Down, fx := FxType.Unknown, high := 10, low := 5,
    time_begin := 0, time_end := 0, units := [], pre_kl := none, next_kl := none }

/-- A bar that contains the tail above: merging is the Combine case. -/
def cexBarUnit : KLineUnit :=
  { time := 1, open_ := 6, close := 7, high := 12, low := 4, dir := KLineDir.Up }

/-- A bar whose high is below its low. -/
def badBarHL : BarInput := { time := 1, open_ := 1, close := 1, high := 1, low := 2 }

/-- A bar with nonpositive prices. -/
def badBarNeg : BarInput := { time := 1, open_ := -1, close := -1, high := -1, low := -2 }

/-- First bar of the backwards-time stream. -/
def cexBar1 : BarInput := { time := 10, open_ := 10, close := 15, high := 20, low := 10 }

/-- Second bar of the backwards-time stream: its time precedes the tail
time_end and its range is contained in the tail range. -/
def cexBar2 : BarInput := { time := 5, open_ := 13, close := 14, high := 18, low := 12 }

/-- Feed two raw bars through a fresh KLineList. -/
def addTwoBars (b1 b2 : BarInput) : Except ChanErr KLineList :=
  match (KLineList.new BiConfig.default).add_single_klu (KLineUnit.new b1 true) with
  | .error e => .error e
  | .ok s1 => s1.add_single_klu (KLineUnit.new b2 true)

/- Candle chain and stroke state exercising can_update_peak. -/

def pk0 : KLine :=
  { idx := 0, dir := KLineDir.Up, fx := FxType.Bottom, high := 12, low := 10,
    time_begin := 0, time_end := 0, units := [], pre_kl := none, next_kl := some 1 }

def pk1 : KLine :=
  { idx := 1, dir := KLineDir.Up, fx := FxType.Unknown, high := 15, low := 11,
    time_begin := 1, time_end := 1, units := [], pre_kl := some 0, next_kl := some 2 }

def pk2 : KLine :=
  { idx := 2, dir := KLineDir.Up, fx := FxType.Top, high := 20, low := 18,
    time_begin := 2, time_end := 2, units := [], pre_kl := some 1, next_kl := some 3 }

def pk3 : KLine :=
  { idx := 3, dir := KLineDir.Down, fx := FxType.Unknown, high := 19, low := 15,
    time_begin := 3, time_end := 3, units := [], pre_kl := some 2, next_kl := some 4 }

def pk4 : KLine :=
  { idx := 4, dir := KLineDir.Up, fx := FxType.Unknown, high := 25, low := 14,
    time_begin := 4, time_end := 4, units := [], pre_kl := some 3, next_kl := none }

def pBi0 : Bi :=
  { begin_klc_idx := 0, end_klc_idx := 2, dir := BiDir.Up, idx := 0,
    is_sure := true, sure_end := [], next := some 1, pre := none }

def pBi1 : Bi :=
  { begin_klc_idx := 2, end_klc_idx := 3, dir := BiDir.Down, idx := 1,
    is_sure := false, sure_end := [], next := none, pre := some 0 }

/-- The default configuration with bi_allow_sub_peak switched off. -/
def noSubPeakConfig : BiConfig := { BiConfig.default with bi_allow_sub_peak := false }

/-- Two strokes, the last one unconfirmed, bi_allow_sub_peak = false. -/
def cexPeakState : BiList :=
  { bi_list := [0, 1], last_end := some 3, config := noSubPeakConfig,
    free_klc_lst := [], arena := [pBi0, pBi1], kline_arena := [pk0, pk1, pk2, pk3, pk4] }

/-- The same state with bi_allow_sub_peak = true. -/
def cexPeakStateAllow : BiList := { cexPeakState with config := BiConfig.default }

/- Candle chain and stroke states exercising can_make_bi, Bi::set,
try_add_virtual_bi and update_bi_sure. -/

def vk0 : KLine :=
  { idx := 0, dir := KLineDir.Up, fx := FxType.Bottom, high := 12, low := 10,
    time_begin := 0, time_end := 0, units := [], pre_kl := none, next_kl := some 1 }

def vk1 : KLine :=
  { idx := 1, dir := KLineDir.Up, fx := FxType.Unknown, high := 15, low := 11,
    time_begin := 1, time_end := 1, units := [], pre_kl := some 0, next_kl := some 2 }

def vk2 : KLine :=
  { idx := 2, dir := KLineDir.Up, fx := FxType.Top, high := 20, low := 18,
    time_begin := 2, time_end := 2, units := [], pre_kl := some 1, next_kl := some 3 }

def vk3 : KLine :=
  { idx := 3, dir := KLineDir.Down, fx := FxType.Unknown, high := 19, low := 14,
    time_begin := 3, time_end := 3, units := [], pre_kl := some 2, next_kl := some 4 }

def vk4 : KLine :=
  { idx := 4, dir := KLineDir.Down, fx := FxType.Bottom, high := 11, low := 8,
    time_begin := 4, time_end := 4, units := [], pre_kl := some 3, next_kl := none }

/-- The shared candle arena for the stroke states below. -/
def vkArena : List KLine := [vk0, vk1, vk2, vk3, vk4]

/-- One confirmed stroke vk0 to vk2. -/
def vBi0 : Bi :=
  { begin_klc_idx := 0, end_klc_idx := 2, dir := BiDir.Up, idx := 0,
    is_sure := true, sure_end := [], next := none, pre := none }

/-- State whose single stroke is confirmed: try_add_virtual_bi appends. -/
def cexVState : BiList :=
  { bi_list := [0], last_end := some 2, config := BiConfig.default,
    free_klc_lst := [], arena := [vBi0], kline_arena := vkArena }

/-- The state try_add_virtual_bi produces from cexVState and vk4. -/
def cexVStateAfter : BiList :=
  { bi_list := [0, 1], last_end := some 2, config := BiConfig.default,
    free_klc_lst := [],
    arena := [{ vBi0 with next := some 1 },
              { begin_klc_idx := 2, end_klc_idx := 4, dir := BiDir.Down, idx := 1,
                is_sure := false, sure_end := [], next := none, pre := some 0 }],
    kline_arena := vkArena }

/-- One unconfirmed stroke vk0 to vk2. -/
def wBi0 : Bi :=
  { begin_klc_idx := 0, end_klc_idx := 2, dir := BiDir.Up, idx := 0,
    is_sure := false, sure_end := [], next := none, pre := none }

/-- State whose single stroke is unconfirmed: update_bi_sure confirms it and
appends the next stroke when vk4 arrives. -/
def w3State : BiList :=
  { bi_list := [0], last_end := some 2, config := BiConfig.default,
    free_klc_lst := [], arena := [wBi0], kline_arena := vkArena }

/-- A stroke record used as the re-pointing target of Bi::set. -/
def tmplBi : Bi :=
  { begin_klc_idx := 0, end_klc_idx := 0, dir := BiDir.Up, idx := 5,
    is_sure := true, sure_end := [], next := none, pre := none }

/- Candle arena exercising check_fx_valid under method totally. -/

def fa2 : KLine :=
  { idx := 2, dir := KLineDir.Up, fx := FxType.Unknown, high := 21, low := 5,
    time_begin := 0, time_end := 0, units := [], pre_kl := none, next_kl := some 1 }

def fxA : KLine :=
  { idx := 3, dir := KLineDir.Up, fx := FxType.Top, high := 20, low := 10,
    time_begin := 0, time_end := 0, units := [], pre_kl := some 0, next_kl := some 2 }

def fa4 : KLine :=
  { idx := 4, dir := KLineDir.Down, fx := FxType.Unknown, high := 19, low := 12,
    time_begin := 0, time_end := 0, units := [], pre_kl := some 1, next_kl := some 3 }

def fa5 : KLine :=
  { idx := 5, dir := KLineDir.Down, fx := FxType.Unknown, high := 7, low := 6,
    time_begin := 0, time_end := 0, units := [], pre_kl := some 2, next_kl := some 4 }

def fxB : KLine :=
  { idx := 6, dir := KLineDir.Down, fx := FxType.Bottom, high := 8, low := 6,
    time_begin := 0, time_end := 0, units := [], pre_kl := some 3, next_kl := none }

/-- Arena on which totally passes for (fxA, fxB) but strict fails: the low of
the predecessor of fxA (fa2.low = 5) undercuts fxB.low = 6. -/
def cexFxArena : List KLine := [fa2, fxA, fa4, fa5, fxB]

def fb7 : KLine :=
  { idx := 7, dir := KLineDir.Up, fx := FxType.Unknown, high := 9, low := 7,
    time_begin := 0, time_end := 0, units := [], pre_kl := some 4, next_kl := none }

def witFxB : KLine :=
  { idx := 6, dir := KLineDir.Down, fx := FxType.Bottom, high := 8, low := 6,
    time_begin := 0, time_end := 0, units := [], pre_kl := some 3, next_kl := some 5 }

/-- Arena on which totally passes for (fxA, witFxB) with both neighbours of
witFxB present. -/
def witFxArena : List KLine := [fa2, fxA, fa4, fa5, witFxB, fb7]

/- Claim theorems. -/

/-- C1: KLine::add_unit ignores the directional regime.  At this concrete
input the tail candle direction is Down and the incoming bar contains the
tail, yet the merged high is max(T.high, B.high) = 12 where the claimed
Down regime demands min(T.high, B.high) = 10. -/
theorem addUnit_ignores_direction_at_failing_input :
    cexTailDown.dir = KLineDir.Down ∧
    KLine.add_unit cexTailDown 0 [cexBarUnit] =
      .ok { cexTailDown with units := [0], high := 12, low := 4, time_end := 1 } ∧
    min cexTailDown.high cexBarUnit.high = 10 ∧ (12 : ℚ) ≠ 10 := by
  refine ⟨rfl, by decide, by decide, by decide⟩

/-- C4: a bar with high < low and a bar with nonpositive prices are both
accepted: KLineUnit::new performs no validation, and add_single_klu appends a
candle for each of them instead of raising the claimed data-validation
failure and leaving the state unchanged. -/
theorem invalid_bar_accepted_without_error :
    badBarHL.high < badBarHL.low ∧ badBarNeg.low ≤ 0 ∧
    (KLineList.new BiConfig.default).add_single_klu (KLineUnit.new badBarHL true) =
      .ok { klines := [0]
            bi_list := BiList.new BiConfig.default
            arena := [KLine.new (KLineUnit.new badBarHL true) 0 KLineDir.Up]
            unit_arena := [KLineUnit.new badBarHL true] } ∧
    ((KLineList.new BiConfig.default).add_single_klu (KLineUnit.new badBarNeg true)).map
        (fun s => s.klines.length) = .ok 1 := by
  refine ⟨by decide, by decide, by decide, by decide⟩

/-- C5: a bar whose time 5 precedes the tail candle time_end 10 is accepted
without any error: it is merged into the tail candle, whose time_end moves
backwards to 5, instead of the claimed validation error with no candle
created or modified. -/
theorem backwards_bar_accepted_and_merged :
    cexBar2.time < cexBar1.time ∧
    ((KLineList.new BiConfig.default).add_single_klu (KLineUnit.new cexBar1 true)).map
        (fun s => (s.arena.get? 0).map (fun k => k.time_end)) = .ok (some 10) ∧
    (addTwoBars cexBar1 cexBar2).map
        (fun s => (s.klines.length,
          (s.arena.get? 0).map (fun k => (k.time_begin, k.time_end)))) =
      .ok (1, some (10, 5)) := by
  refine ⟨by decide, by decide, by decide⟩

/-- C10: has_overlap is symmetric in its two intervals; with equal = true it
answers true exactly when h2 is at least l1 and h1 at least l2, which under
ordered endpoints is exactly nonempty intersection of the closed intervals;
with equal = false the comparisons are strict, so intervals that only touch
at a boundary do not count as overlapping. -/
theorem has_overlap_props :
    (∀ (l1 h1 l2 h2 : ℚ) (e : Bool),
        has_overlap l1 h1 l2 h2 e = has_overlap l2 h2 l1 h1 e) ∧
    (∀ l1 h1 l2 h2 : ℚ,
        has_overlap l1 h1 l2 h2 true = true ↔ (h2 ≥ l1 ∧ h1 ≥ l2)) ∧
    (∀ l1 h1 l2 h2 : ℚ, l1 ≤ h1 → l2 ≤ h2 →
        (has_overlap l1 h1 l2 h2 true = true ↔
          ∃ x : ℚ, l1 ≤ x ∧ x ≤ h1 ∧ l2 ≤ x ∧ x ≤ h2)) ∧
    (∀ l1 h1 l2 h2 : ℚ,
        has_overlap l1 h1 l2 h2 false = true ↔ (h2 > l1 ∧ h1 > l2)) ∧
    (∀ l1 h1 h2 : ℚ, has_overlap l1 h1 h1 h2 false = false) ∧
    (∀ l1 h1 l2 : ℚ, has_overlap l1 h1 l2 l1 false = false) := by
  refine ⟨?_, ?_, ?_, ?_, ?_, ?_⟩
  · intro l1 h1 l2 h2 e
    cases e <;> simp [has_overlap, Bool.and_comm]
  · intro l1 h1 l2 h2
    simp [has_overlap, and_comm]
  · intro l1 h1 l2 h2 hh1 hh2
    rw [show (has_overlap l1 h1 l2 h2 true = true) ↔ (h2 ≥ l1 ∧ h1 ≥ l2) by
      simp [has_overlap, and_comm]]
    constructor
    · rintro ⟨ha, hb⟩
      exact ⟨max l1 l2, le_max_left _ _, max_le hh1 hb, le_max_right _ _, max_le ha hh2⟩
    · rintro ⟨x, hx1, hx2, hx3, hx4⟩
      exact ⟨le_trans hx1 hx4, le_trans hx3 hx2⟩
  · intro l1 h1 l2 h2
    simp [has_overlap, and_comm]
  · intro l1 h1 h2
    simp [has_overlap]
  · intro l1 h1 l2
    simp [has_overlap]

/-- C10 witness: the intersection characterisation applied at the concrete
intervals [1, 3] and [2, 4]. -/
theorem has_overlap_props_witness :
    has_overlap 1 3 2 4 true = true ↔ ∃ x : ℚ, 1 ≤ x ∧ x ≤ 3 ∧ 2 ≤ x ∧ x ≤ 4 :=
  has_overlap_props.2.2.1 1 3 2 4 (by norm_num) (by norm_num)

/-- Shared helper: everything a successful can_make_bi guarantees about the
two endpoint candles. -/
theorem canMakeBi_ok_implies (st : BiList) (b e : KLine)
    (h : st.can_make_bi b e = .ok true) :
    b.fx ≠ FxType.Unknown ∧ e.fx ≠ FxType.Unknown ∧ b.fx ≠ e.fx ∧
    (b.fx = FxType.Bottom → e.high > b.low) ∧
    (b.fx = FxType.Top → e.low < b.high) := by
  unfold BiList.can_make_bi at h
  by_cases h1 : b.fx = FxType.Unknown ∨ e.fx = FxType.Unknown
  · rw [if_pos h1] at h
    exact absurd h (by simp)
  · rw [if_neg h1] at h
    push_neg at h1
    by_cases h2 : b.fx = e.fx
    · rw [if_pos h2] at h
      exact absurd h (by simp)
    · rw [if_neg h2] at h
      refine ⟨h1.1, h1.2, h2, ?_, ?_⟩
      · intro hfx
        rw [hfx] at h
        split at h
        · exact absurd h (by simp)
        · exact absurd h (by simp)
        · by_cases hle : e.high ≤ b.low
          · simp [hle] at h
          · exact lt_of_not_le hle
      · intro hfx
        rw [hfx] at h
        split at h
        · exact absurd h (by simp)
        · exact absurd h (by simp)
        · by_cases hge : e.low ≥ b.high
          · simp [hge] at h
          · exact lt_of_not_le hge

/-- C7: BiList::can_make_bi answers true only when the two fractal types are
opposite (neither Unknown) and the directional price ordering holds: for a
Bottom begin, end.high above begin.low; for a Top begin, end.low below
begin.high. -/
theorem can_make_bi_true_only_if (st : BiList) (b e : KLine)
    (h : st.can_make_bi b e = .ok true) :
    ((b.fx = FxType.Bottom ∧ e.fx = FxType.Top) ∨
      (b.fx = FxType.Top ∧ e.fx = FxType.Bottom)) ∧
    (b.fx = FxType.Bottom → e.high > b.low) ∧
    (b.fx = FxType.Top → e.low < b.high) := by
  obtain ⟨hbu, heu, hbe, hbot, htop⟩ := canMakeBi_ok_implies st b e h
  refine ⟨?_, hbot, htop⟩
  cases hb : b.fx with
  | Unknown => exact absurd hb hbu
  | Bottom =>
      cases he : e.fx with
      | Unknown => exact absurd he heu
      | Bottom => rw [hb, he] at hbe; exact absurd rfl hbe
      | Top => exact Or.inl ⟨rfl, rfl⟩
  | Top =>
      cases he : e.fx with
      | Unknown => exact absurd he heu
      | Top => rw [hb, he] at hbe; exact absurd rfl hbe
      | Bottom => exact Or.inr ⟨rfl, rfl⟩

/-- C7 witness: the stroke predicate holds on the concrete pair (vk2, vk4), so
the necessary conditions follow at that input. -/
theorem can_make_bi_true_only_if_witness :
    ((vk2.fx = FxType.Bottom ∧ vk4.fx = FxType.Top) ∨
      (vk2.fx = FxType.Top ∧ vk4.fx = FxType.Bottom)) ∧
    (vk2.fx = FxType.Bottom → vk4.high > vk2.low) ∧
    (vk2.fx = FxType.Top → vk4.low < vk2.high) :=
  can_make_bi_true_only_if cexVState vk2 vk4 (by decide)

/-- C8: Bi::set (and Bi::new, which delegates to it) derives the stroke
direction from the begin fractal (Bottom gives Up, Top gives Down, Unknown
raises BiErr), and raises BiErr exactly when the direction contradicts the
endpoint prices: Up with begin.low at or above end.high, Down with begin.high
at or below end.low. -/
theorem bi_set_direction_check (b : Bi) (bk ek : KLine) (arena : List KLine)
    (hb : arena.get? bk.idx = some bk) (he : arena.get? ek.idx = some ek) :
    (bk.fx = FxType.Unknown →
        errCodeOf (b.set bk ek arena) = some ErrCode.BiErr ∧
        (∀ (i : Nat) (s : Bool),
          errCodeOf (Bi.new bk ek i s arena) = some ErrCode.BiErr)) ∧
    (bk.fx = FxType.Bottom →
        (bk.low ≥ ek.high → errCodeOf (b.set bk ek arena) = some ErrCode.BiErr) ∧
        (bk.low < ek.high →
          b.set bk ek arena =
            .ok { b with begin_klc_idx := bk.idx, end_klc_idx := ek.idx,
                         dir := BiDir.Up })) ∧
    (bk.fx = FxType.Top →
        (bk.high ≤ ek.low → errCodeOf (b.set bk ek arena) = some ErrCode.BiErr) ∧
        (bk.high > ek.low →
          b.set bk ek arena =
            .ok { b with begin_klc_idx := bk.idx, end_klc_idx := ek.idx,
                         dir := BiDir.Down })) := by
  simp only [List.get?_eq_getElem?] at hb he
  refine ⟨?_, ?_, ?_⟩
  · intro hfx
    constructor
    · simp [Bi.set, hfx, errCodeOf]
    · intro i s
      simp [Bi.new, Bi.set, hfx, errCodeOf]
  · intro hfx
    constructor
    · intro hord
      simp [Bi.set, hfx, Bi.check, hb, he, errCodeOf, hord]
    · intro hord
      simp [Bi.set, hfx, Bi.check, hb, he, errCodeOf, not_le.mpr hord]
  · intro hfx
    constructor
    · intro hord
      simp [Bi.set, hfx, Bi.check, hb, he, errCodeOf, hord]
    · intro hord
      simp [Bi.set, hfx, Bi.check, hb, he, errCodeOf, not_le.mpr hord]

/-- C8 witness: re-pointing a stroke onto the concrete candles vk0 (Bottom)
and vk2 derives direction Up and succeeds, since vk0.low is below vk2.high. -/
theorem bi_set_direction_check_witness :
    (vk0.fx = FxType.Unknown →
        errCodeOf (tmplBi.set vk0 vk2 vkArena) = some ErrCode.BiErr ∧
        (∀ (i : Nat) (s : Bool),
          errCodeOf (Bi.new vk0 vk2 i s vkArena) = some ErrCode.BiErr)) ∧
    (vk0.fx = FxType.Bottom →
        (vk0.low ≥ vk2.high → errCodeOf (tmplBi.set vk0 vk2 vkArena) = some ErrCode.BiErr) ∧
        (vk0.low < vk2.high →
          tmplBi.set vk0 vk2 vkArena =
            .ok { tmplBi with begin_klc_idx := vk0.idx, end_klc_idx := vk2.idx,
                              dir := BiDir.Up })) ∧
    (vk0.fx = FxType.Top →
        (vk0.high ≤ vk2.low → errCodeOf (tmplBi.set vk0 vk2 vkArena) = some ErrCode.BiErr) ∧
        (vk0.high > vk2.low →
          tmplBi.set vk0 vk2 vkArena =
            .ok { tmplBi with begin_klc_idx := vk0.idx, end_klc_idx := vk2.idx,
                              dir := BiDir.Down })) :=
  bi_set_direction_check tmplBi vk0 vk2 vkArena (by decide) (by decide)

/-- Shared helper: with bi_allow_sub_peak = true the very first guard of
can_update_peak answers false. -/
theorem canUpdatePeak_allow_true (st : BiList) (klc : KLine)
    (h : st.config.bi_allow_sub_peak = true) :
    st.can_update_peak klc = .ok false := by
  unfold BiList.can_update_peak
  rw [if_pos (Or.inl h)]

/-- C2 counterexample: the claim says bi_allow_sub_peak = false disables
peak-extension once two strokes exist, i.e. can_update_peak always answers
false then; on cexPeakState (two strokes, flag false) it answers true for the
candle pk4. -/
theorem can_update_peak_subpeak_claim_refuted :
    ¬ (∀ (st : BiList) (klc : KLine),
        st.config.bi_allow_sub_peak = false → 2 ≤ st.bi_list.length →
        st.can_update_peak klc = .ok false) := by
  intro h
  have hx := h cexPeakState pk4 (by decide) (by decide)
  exact absurd hx (by decide)

/-- C2 amended: the guard is the reverse of the claim.  With
bi_allow_sub_peak = true, can_update_peak answers false for every state and
candle, and update_bi_sure therefore leaves the state unchanged on the
peak-extension path (same fractal type at the unconfirmed tail); with
bi_allow_sub_peak = false, peak-extension after two strokes is enabled: on the
concrete state cexPeakState it answers true. -/
theorem can_update_peak_flag_semantics :
    (∀ (st : BiList) (klc : KLine), st.config.bi_allow_sub_peak = true →
        st.can_update_peak klc = .ok false) ∧
    (∀ (st : BiList) (klc : KLine) (lastIdx : Nat) (L : Bi) (E : KLine),
        st.config.bi_allow_sub_peak = true →
        st.bi_list.getLast? = some lastIdx →
        st.arena.get? lastIdx = some L →
        L.is_sure = false →
        st.kline_arena.get? L.end_klc_idx = some E →
        E.fx = klc.fx →
        st.update_bi_sure klc = .ok (st, false)) ∧
    (cexPeakState.config.bi_allow_sub_peak = false ∧
        cexPeakState.can_update_peak pk4 = .ok true) := by
  refine ⟨canUpdatePeak_allow_true, ?_, by decide, by decide⟩
  intro st klc lastIdx L E hcfg hlast hL hsure hE hfx
  simp only [BiList.update_bi_sure, hlast, hL, hsure, hE, hfx,
    canUpdatePeak_allow_true st klc hcfg, Bool.false_eq_true, if_false,
    eq_self_iff_true, if_true]

/-- C2 witness: with bi_allow_sub_peak = true on the concrete two-stroke
state, update_bi_sure with the same-fractal candle pk4 changes nothing. -/
theorem can_update_peak_flag_semantics_witness :
    cexPeakStateAllow.update_bi_sure pk4 = .ok (cexPeakStateAllow, false) :=
  can_update_peak_flag_semantics.2.1 cexPeakStateAllow pk4 1 pBi1 pk3
    (by decide) (by decide) (by decide) (by decide) (by decide) (by decide)

/-- C6 counterexample: the claim says check_fx_valid under totally answers
true only if strict also passes on the same pair; on the concrete arena
cexFxArena the pair (fxA, fxB) passes totally but fails strict, because the
low of the predecessor of fxA undercuts fxB.low. -/
theorem check_fx_valid_totally_claim_refuted :
    ¬ (∀ (s i2 : KLine) (arena : List KLine), s.fx = FxType.Top →
        s.check_fx_valid i2 FxCheckMethod.Totally false arena = .ok true →
        s.check_fx_valid i2 FxCheckMethod.Strict false arena = .ok true) := by
  intro h
  have hx := h fxA fxB cexFxArena (by decide) (by decide)
  exact absurd hx (by decide)

/-- C6 amended: under totally with for_virtual = false, a true answer forces
the opposite fractal type on the candidate and the whole body condition: for
a Top anchor, anchor.low strictly above the maximum of the highs of the
candidate, its predecessor and its successor; symmetrically for a Bottom
anchor.  The strict check need not also pass. -/
theorem check_fx_valid_totally_only_if :
    (∀ (s i2 : KLine) (arena : List KLine) (pi ni : Nat) (p n : KLine),
        s.fx = FxType.Top →
        i2.pre_kl = some pi → arena.get? pi = some p →
        i2.next_kl = some ni → arena.get? ni = some n →
        s.check_fx_valid i2 FxCheckMethod.Totally false arena = .ok true →
        i2.fx = FxType.Bottom ∧ s.low > max (max p.high i2.high) n.high) ∧
    (∀ (s i2 : KLine) (arena : List KLine) (pi ni : Nat) (p n : KLine),
        s.fx = FxType.Bottom →
        i2.pre_kl = some pi → arena.get? pi = some p →
        i2.next_kl = some ni → arena.get? ni = some n →
        s.check_fx_valid i2 FxCheckMethod.Totally false arena = .ok true →
        i2.fx = FxType.Top ∧ s.high < min (min p.low i2.low) n.low) := by
  constructor
  · intro s i2 arena pi ni p n hfx hpre hp hnext hn hok
    simp only [List.get?_eq_getElem?] at hp hn
    unfold KLine.check_fx_valid at hok
    split at hok
    · exact absurd hok (by simp)
    · split at hok
      · exact absurd hok (by simp)
      · split at hok
        · by_cases hb : i2.fx = FxType.Bottom
          · refine ⟨hb, ?_⟩
            simp [hb, hpre, hnext, hp, hn, optHigh, optLow, maxD, maxD2, minD, minD2] at hok
            exact max_lt (max_lt hok.1.1 hok.1.2) hok.2
          · rw [if_pos ⟨rfl, hb⟩] at hok
            exact absurd hok (by simp)
        next heq => rw [hfx] at heq; exact absurd heq (by decide)
        next heq => rw [hfx] at heq; exact absurd heq (by decide)
  · intro s i2 arena pi ni p n hfx hpre hp hnext hn hok
    simp only [List.get?_eq_getElem?] at hp hn
    unfold KLine.check_fx_valid at hok
    split at hok
    · exact absurd hok (by simp)
    · split at hok
      · exact absurd hok (by simp)
      · split at hok
        next heq => rw [hfx] at heq; exact absurd heq (by decide)
        · by_cases hb : i2.fx = FxType.Top
          · refine ⟨hb, ?_⟩
            simp [hb, hpre, hnext, hp, hn, optHigh, optLow, maxD, maxD2, minD, minD2] at hok
            exact lt_min (lt_min hok.1.1 hok.1.2) hok.2
          · rw [if_pos ⟨rfl, hb⟩] at hok
            exact absurd hok (by simp)
        next heq => rw [hfx] at heq; exact absurd heq (by decide)

/-- C6 witness: on the concrete arena witFxArena, totally passes for
(fxA, witFxB) with both neighbours of witFxB present, and the necessary
condition follows there. -/
theorem check_fx_valid_totally_only_if_witness :
    witFxB.fx = FxType.Bottom ∧ fxA.low > max (max fa5.high witFxB.high) fb7.high :=
  check_fx_valid_totally_only_if.1 fxA witFxB witFxArena 3 5 fa5 fb7
    (by decide) (by decide) (by decide) (by decide) (by decide) (by decide)

/-- Composite list lemma: overwriting inside the prefix and then the appended
slot. -/
theorem set_append_at_length {α : Type} (l : List α) (x v w : α) (i : Nat)
    (h : i < l.length) :
    ((l ++ [x]).set i v).set l.length w = (l.set i v) ++ [w] := by
  rw [set_append_left l x i v h]
  rw [show l.length = (l.set i v).length by simp]
  exact set_append_length _ _ _

/-- Composite list lemma: reading the appended slot after overwriting inside
the prefix. -/
theorem get?_of_set_append {α : Type} (l : List α) (x v : α) (i : Nat)
    (h : i < l.length) :
    ((l ++ [x]).set i v).get? l.length = some x := by
  rw [get?_set_ne _ _ _ _ (Nat.ne_of_lt h), get?_append_self_length]

/-- Shared helper: when the stroke predicate holds, Bi::new succeeds and
produces exactly the record with the direction derived from the begin
fractal. -/
theorem bi_new_ok_of_can_make_bi (st : BiList) (bK eK : KLine) (i : Nat) (s : Bool)
    (hb : st.kline_arena.get? bK.idx = some bK)
    (he : st.kline_arena.get? eK.idx = some eK)
    (hcmb : st.can_make_bi bK eK = .ok true) :
    Bi.new bK eK i s st.kline_arena = .ok
      { begin_klc_idx := bK.idx, end_klc_idx := eK.idx,
        dir := if bK.fx = FxType.Bottom then BiDir.Up else BiDir.Down,
        idx := i, is_sure := s, sure_end := [], next := none, pre := none } := by
  obtain ⟨hbu, heu, hbe, hbot, htop⟩ := canMakeBi_ok_implies st bK eK hcmb
  simp only [List.get?_eq_getElem?] at hb he
  cases hfx : bK.fx with
  | Unknown => exact absurd hfx hbu
  | Bottom =>
      have hgt := hbot hfx
      simp [Bi.new, Bi.set, hfx, Bi.check, hb, he, not_le.mpr hgt]
  | Top =>
      have hlt := htop hfx
      simp [Bi.new, Bi.set, hfx, Bi.check, hb, he, not_le.mpr hlt]

/-- Shared helper: the exact state add_new_bi produces when the new stroke is
accepted and a previous tail stroke exists. -/
theorem add_new_bi_appends (st : BiList) (lastIdx bIdx eIdx : Nat) (L nb : Bi)
    (bK eK : KLine)
    (hlast : st.bi_list.getLast? = some lastIdx)
    (hL : st.arena.get? lastIdx = some L)
    (hb : st.kline_arena.get? bIdx = some bK)
    (he : st.kline_arena.get? eIdx = some eK)
    (hnew : Bi.new bK eK st.bi_list.length true st.kline_arena = .ok nb) :
    st.add_new_bi bIdx eIdx = .ok
      { st with
          arena := (st.arena.set lastIdx { L with next := some st.arena.length }) ++
            [{ nb with pre := some lastIdx }]
          bi_list := st.bi_list ++ [st.arena.length] } := by
  have hlt : lastIdx < st.arena.length := get?_some_lt _ _ _ hL
  simp only [BiList.add_new_bi, hb, he, hnew, hlast,
    get?_append_left_of_lt st.arena [nb] lastIdx hlt, hL,
    get?_of_set_append st.arena nb ({ L with next := some st.arena.length }) lastIdx hlt,
    set_append_at_length st.arena nb ({ L with next := some st.arena.length })
      ({ nb with pre := some lastIdx }) lastIdx hlt]

/-- Shared helper: the exact state add_virtual_bi produces when the virtual
stroke is accepted and a previous tail stroke exists. -/
theorem add_virtual_bi_appends (st : BiList) (lastIdx bIdx eIdx : Nat) (L nb : Bi)
    (bK eK : KLine)
    (hlast : st.bi_list.getLast? = some lastIdx)
    (hL : st.arena.get? lastIdx = some L)
    (hb : st.kline_arena.get? bIdx = some bK)
    (he : st.kline_arena.get? eIdx = some eK)
    (hnew : Bi.new bK eK st.bi_list.length false st.kline_arena = .ok nb) :
    st.add_virtual_bi bIdx eIdx = .ok
      { st with
          arena := (st.arena.set lastIdx { L with next := some st.arena.length }) ++
            [{ nb with pre := some lastIdx }]
          bi_list := st.bi_list ++ [st.arena.length] } := by
  have hlt : lastIdx < st.arena.length := get?_some_lt _ _ _ hL
  simp only [BiList.add_virtual_bi, hb, he, hnew, hlast,
    get?_append_left_of_lt st.arena [nb] lastIdx hlt, hL,
    get?_of_set_append st.arena nb ({ L with next := some st.arena.length }) lastIdx hlt,
    set_append_at_length st.arena nb ({ L with next := some st.arena.length })
      ({ nb with pre := some lastIdx }) lastIdx hlt]

/-- C3: when the last stroke L is unconfirmed, the incoming candle klc has a
fractal different from the end candle E of L, and the stroke predicate passes
on (E, klc), update_bi_sure answers true and produces exactly the state in
which L is confirmed (is_sure = true), the handle of E is appended to the
sure_end history of L, and one new confirmed stroke is appended whose begin
candle handle is the end candle handle of L and whose end is klc, so the
adjacent stroke pair shares its endpoint candle. -/
theorem update_bi_sure_confirms_and_appends
    (st : BiList) (klc : KLine) (lastIdx : Nat) (L : Bi) (E : KLine)
    (hlast : st.bi_list.getLast? = some lastIdx)
    (hL : st.arena.get? lastIdx = some L)
    (hsure : L.is_sure = false)
    (hE : st.kline_arena.get? L.end_klc_idx = some E)
    (hEidx : E.idx = L.end_klc_idx)
    (hfx : E.fx ≠ klc.fx)
    (hklc : st.kline_arena.get? klc.idx = some klc)
    (hcmb : st.can_make_bi E klc = .ok true) :
    st.update_bi_sure klc = .ok
      ({ st with
          arena := (st.arena.set lastIdx
              { L with is_sure := true,
                       sure_end := L.sure_end ++ [L.end_klc_idx],
                       next := some st.arena.length }) ++
            [{ begin_klc_idx := L.end_klc_idx
               end_klc_idx := klc.idx
               dir := if E.fx = FxType.Bottom then BiDir.Up else BiDir.Down
               idx := st.bi_list.length
               is_sure := true
               sure_end := []
               next := none
               pre := some lastIdx }]
          bi_list := st.bi_list ++ [st.arena.length] }, true) := by
  have hlt : lastIdx < st.arena.length := get?_some_lt _ _ _ hL
  have hEb : st.kline_arena.get? E.idx = some E := by rw [hEidx]; exact hE
  have hnew := bi_new_ok_of_can_make_bi st E klc st.bi_list.length true hEb hklc hcmb
  have happ := add_new_bi_appends
    ({ st with arena := st.arena.set lastIdx ({ L with is_sure := true, sure_end := L.sure_end ++ [L.end_klc_idx] }) })
    lastIdx E.idx klc.idx
    ({ L with is_sure := true, sure_end := L.sure_end ++ [L.end_klc_idx] })
    ({ begin_klc_idx := E.idx, end_klc_idx := klc.idx,
       dir := if E.fx = FxType.Bottom then BiDir.Up else BiDir.Down,
       idx := st.bi_list.length, is_sure := true, sure_end := [],
       next := none, pre := none })
    E klc hlast (get?_set_self _ _ _ hlt) hEb hklc hnew
  simp only [BiList.update_bi_sure, hlast, hL, hsure, hE, hfx, hcmb,
    Bool.false_eq_true, if_false, happ, set_set_same, List.length_set]
  simp only [hEidx]

/-- C3 witness: the confirmation-and-append behaviour at the concrete state
w3State (one unconfirmed Up stroke ending at the Top candle vk2) and the
Bottom candle vk4. -/
theorem update_bi_sure_confirms_witness :
    w3State.update_bi_sure vk4 = .ok
      ({ w3State with
          arena := (w3State.arena.set 0
              ({ wBi0 with is_sure := true,
                           sure_end := wBi0.sure_end ++ [wBi0.end_klc_idx],
                           next := some w3State.arena.length })) ++
            [{ begin_klc_idx := wBi0.end_klc_idx
               end_klc_idx := vk4.idx
               dir := if vk2.fx = FxType.Bottom then BiDir.Up else BiDir.Down
               idx := w3State.bi_list.length
               is_sure := true
               sure_end := []
               next := none
               pre := some 0 }]
          bi_list := w3State.bi_list ++ [w3State.arena.length] }, true) :=
  update_bi_sure_confirms_and_appends w3State vk4 0 wBi0 vk2
    (by decide) (by decide) (by decide) (by decide) (by decide) (by decide)
    (by decide) (by decide)

/-- C9 counterexample: the claim says that when try_add_virtual_bi appends,
no existing stroke is modified; on cexVState the next link of the previous
tail stroke (handle 0) changes from none to some 1. -/
theorem try_add_virtual_bi_frame_claim_refuted :
    ¬ (∀ (st : BiList) (k : KLine) (st' : BiList),
        st.try_add_virtual_bi k = .ok (st', true) →
        ∀ i, i ∈ st.bi_list → st'.arena.get? i = st.arena.get? i) := by
  intro h
  have hx := h cexVState vk4 cexVStateAfter (by decide) 0 (by decide)
  exact absurd hx (by decide)

/-- C9 amended: try_add_virtual_bi answers false with the state unchanged
when the stroke list is empty, when the last stroke is unconfirmed, or when
the end candle of the last stroke has fractal Unknown; when it appends, it
appends exactly one stroke with is_sure = false, leaving every existing
stroke unchanged except that the next link of the previous tail stroke is
set to the new stroke handle. -/
theorem try_add_virtual_bi_spec :
    (∀ (st : BiList) (k : KLine), st.bi_list = [] →
        st.try_add_virtual_bi k = .ok (st, false)) ∧
    (∀ (st : BiList) (k : KLine) (i : Nat) (L : Bi),
        st.bi_list.getLast? = some i → st.arena.get? i = some L →
        L.is_sure = false → st.try_add_virtual_bi k = .ok (st, false)) ∧
    (∀ (st : BiList) (k : KLine) (i : Nat) (L : Bi) (E : KLine),
        st.bi_list.getLast? = some i → st.arena.get? i = some L →
        L.is_sure = true → st.kline_arena.get? L.end_klc_idx = some E →
        E.fx = FxType.Unknown → st.try_add_virtual_bi k = .ok (st, false)) ∧
    (∀ (st : BiList) (k : KLine) (lastIdx : Nat) (L : Bi) (E : KLine),
        st.bi_list.getLast? = some lastIdx →
        st.arena.get? lastIdx = some L →
        L.is_sure = true →
        st.kline_arena.get? L.end_klc_idx = some E →
        E.idx = L.end_klc_idx →
        st.kline_arena.get? k.idx = some k →
        st.can_make_bi E k = .ok true →
        st.try_add_virtual_bi k = .ok
          ({ st with
              arena := (st.arena.set lastIdx { L with next := some st.arena.length }) ++
                [{ begin_klc_idx := L.end_klc_idx
                   end_klc_idx := k.idx
                   dir := if E.fx = FxType.Bottom then BiDir.Up else BiDir.Down
                   idx := st.bi_list.length
                   is_sure := false
                   sure_end := []
                   next := none
                   pre := some lastIdx }]
              bi_list := st.bi_list ++ [st.arena.length] }, true)) := by
  refine ⟨?_, ?_, ?_, ?_⟩
  · intro st k h
    simp [BiList.try_add_virtual_bi, h]
  · intro st k i L hlast hL hsure
    simp only [BiList.try_add_virtual_bi, hlast, hL, hsure, eq_self_iff_true, if_true]
  · intro st k i L E hlast hL hsure hE hu
    simp only [BiList.try_add_virtual_bi, hlast, hL, hsure, hE, hu,
      Bool.true_eq_false, if_false, eq_self_iff_true, if_true]
  · intro st k lastIdx L E hlast hL hsure hE hEidx hk hcmb
    obtain ⟨hbu, _, _, _, _⟩ := canMakeBi_ok_implies st E k hcmb
    have hEb : st.kline_arena.get? E.idx = some E := by rw [hEidx]; exact hE
    have hnew := bi_new_ok_of_can_make_bi st E k st.bi_list.length false hEb hk hcmb
    have happ := add_virtual_bi_appends st lastIdx E.idx k.idx L
      ({ begin_klc_idx := E.idx, end_klc_idx := k.idx,
         dir := if E.fx = FxType.Bottom then BiDir.Up else BiDir.Down,
         idx := st.bi_list.length, is_sure := false, sure_end := [],
         next := none, pre := none })
      E k hlast hL hEb hk hnew
    simp only [BiList.try_add_virtual_bi, hlast, hL, hsure, hE, hbu, hcmb,
      Bool.true_eq_false, if_false, happ]
    simp only [hEidx]

/-- C9 witness: the append behaviour at the concrete state cexVState (one
confirmed Up stroke ending at the Top candle vk2) and the Bottom tail candle
vk4. -/
theorem try_add_virtual_bi_spec_witness :
    cexVState.try_add_virtual_bi vk4 = .ok
      ({ cexVState with
          arena := (cexVState.arena.set 0
              ({ vBi0 with next := some cexVState.arena.length })) ++
            [{ begin_klc_idx := vBi0.end_klc_idx
               end_klc_idx := vk4.idx
               dir := if vk2.fx = FxType.Bottom then BiDir.Up else BiDir.Down
               idx := cexVState.bi_list.length
               is_sure := false
               sure_end := []
               next := none
               pre := some 0 }]
          bi_list := cexVState.bi_list ++ [cexVState.arena.length] }, true) :=
  try_add_virtual_bi_spec.2.2.2 cexVState vk4 0 vBi0 vk2
    (by decide) (by decide) (by decide) (by decide) (by decide) (by decide) (by decide)
